import Mathlib

/-!
Verification of the pacsman DICOM client orchestration logic.

This file shallowly embeds the pure decision logic of the pacsman
repository (src/pacsman):

* a model of pydicom datasets as ordered attribute maps
  (name-to-value association lists, as used by `update_patient_result`,
  `copy_dicom_attributes` and the response-checking generators);
* `checked_responses` from `pynetdicom_client.py`;
* `update_patient_result` from `base_client.py`, translated as an explicit
  state-passing function so that the mutation order of the Python original
  is preserved (each `setattr` is a state update, each `raise` aborts with
  the state reached at that program point);
* `copy_dicom_attributes` and `getattr_required` from `utils.py`;
* `verify` of both clients, `_get_timeout_args` / `_send_c_find` retry
  logic and the `_check_dcmtk_message_for_error` diagnostic-text scanner
  from `dcmtk_client.py` (leading underscores dropped from the Lean names);
* the destination-override selection of `send_datasets`.

Modelling conventions: attribute values are either strings or multi-valued
UID lists (the only shapes the embedded code manipulates).  Python
`AttributeError` / `TypeError` raised when malformed data is handed to
`update_patient_result` are collapsed into one `malformed` error kind;
`InvalidDicomError` (from `getattr_required`) and `ValueError` (the
patient-identifier mismatch) keep their own kinds.  `UID.name` is
modelled as the identity on the UID string (pydicom returns the UID
string itself for UIDs absent from its dictionary, which study instance
UIDs always are).
-/

namespace Pacsman

/-- A pydicom attribute value as manipulated by the embedded code: either a
plain string or a multi-valued list of UID strings. -/
inductive AttrValue where
  | str (s : String)
  | uidList (us : List String)
deriving DecidableEq, Repr

/-- A pydicom `Dataset`, modelled as an ordered association list from
attribute keyword to value.  `len(ds)` is the list length; `hasattr`,
`getattr` and `setattr` are the operations below. -/
abbrev PDataset := List (String × AttrValue)

/-- `getattr(ds, name)` returning `none` when the attribute is absent.  A
pydicom dataset is dict-backed, so at most one element per keyword
exists; lookup finds it. -/
def getAttr : PDataset → String → Option AttrValue
  | [], _ => none
  | (k, v) :: rest, name => if k = name then some v else getAttr rest name

/-- `hasattr(ds, name)`. -/
def hasAttr (d : PDataset) (name : String) : Bool :=
  (getAttr d name).isSome

/-- `setattr(ds, name, v)`: replaces the value of an existing keyword in
place (dict semantics: the keyword occurs at most once), otherwise appends
the new element at the end. -/
def setAttr : PDataset → String → AttrValue → PDataset
  | [], name, v => [(name, v)]
  | (k, w) :: rest, name, v =>
    if k = name then (name, v) :: rest
    else (k, w) :: setAttr rest name v

/-- `status_success_or_pending` from `pynetdicom_client.py` line 21 (and the
identical list in `dcmtk_client.py` line 33). -/
def status_success_or_pending : List Nat := [0x0000, 0xFF00, 0xFF01]

/-- `checked_responses` from `pynetdicom_client.py` lines 495-510.  A
response is a `(status, dataset)` pair; pynetdicom delivers `None` instead
of a dataset on terminal markers, modelled as `Option PDataset`.  A status
in the success-or-pending set yields the payload when it is a dataset
(`isinstance(dataset, Dataset)`); any other status raises, carrying the
offending code, and the rest of the stream is never consumed. -/
def checked_responses : List (Nat × Option PDataset) → Except Nat (List PDataset)
  | [] => .ok []
  | (status, dataset) :: rest =>
    if status_success_or_pending.contains status then
      match dataset with
      | some ds => (checked_responses rest).map (fun l => ds :: l)
      | none => checked_responses rest
    else
      .error status

/-- `PRIVATE_ID` from `base_client.py` line 25. -/
def PRIVATE_ID : String := "pacsman"

/-- The `ValueError` raised by `copy_dicom_attributes` on a `missing`
policy other than the recognized `"skip"` / `"empty"` values. -/
inductive CopyErr where
  | invalidPolicy (missing : String)
deriving DecidableEq, Repr

/-- `copy_dicom_attributes(destination, source, tags, missing)` from
`utils.py` lines 113-121.  For each tag present on the source the value is
copied; for an absent tag the `"empty"` policy writes an empty string, the
`"skip"` policy does nothing, and any other policy value raises
`ValueError` at that point in the loop. -/
def copy_dicom_attributes (destination source : PDataset) (tags : List String)
    (missing : String) : Except CopyErr PDataset :=
  match tags with
  | [] => .ok destination
  | tag :: rest =>
    match getAttr source tag with
    | some value =>
      copy_dicom_attributes (setAttr destination tag value) source rest missing
    | none =>
      if missing = "empty" then
        copy_dicom_attributes (setAttr destination tag (.str "")) source rest missing
      else if missing = "skip" then
        copy_dicom_attributes destination source rest missing
      else
        .error (.invalidPolicy missing)

/-- The exceptions `update_patient_result` can raise: `missingAttr` is the
`InvalidDicomError` raised by `getattr_required`, `idMismatch` the
`ValueError` for a differing patient identifier, and `malformed` collapses
the `AttributeError` / `TypeError` cases that arise when an accumulator or
incoming value does not have the shape the code expects. -/
inductive UErr where
  | missingAttr (name : String)
  | idMismatch
  | malformed (name : String)
deriving DecidableEq, Repr

/-- `getattr_required` from `utils.py` lines 147-155. -/
def getattr_required (dataset : PDataset) (name : String) : Except UErr AttrValue :=
  match getAttr dataset name with
  | some v => .ok v
  | none => .error (.missingAttr name)

/-- Python `a < b` on character lists: code-point lexicographic order, a
proper prefix sorting below its extensions. -/
def charListLt : List Char → List Char → Bool
  | [], [] => false
  | [], _ :: _ => true
  | _ :: _, [] => false
  | a :: as, b :: bs => if a = b then charListLt as bs else decide (a.toNat < b.toNat)

/-- Python `a < b` on strings (code-point lexicographic comparison, the
order `<`/`>` induce on Python `str` and on pydicom date strings). -/
def strLt (a b : String) : Bool :=
  charListLt a.data b.data

/-- Python list comparison `a > b` for lists of strings (used when both
compared attribute values are multi-valued). -/
def listStrGt : List String → List String → Bool
  | _ :: _, [] => true
  | [], _ => false
  | a :: as, b :: bs => if a = b then listStrGt as bs else strLt b a

/-- Python `a > b` on attribute values: strings compare lexicographically,
lists compare elementwise; comparing a string with a list raises
`TypeError`, modelled as `none`. -/
def avGt : AttrValue → AttrValue → Option Bool
  | .str a, .str b => some (strLt b a)
  | .uidList a, .uidList b => some (listStrGt a b)
  | _, _ => none

/-- The first-call branch of `update_patient_result` (`base_client.py`
lines 183-190, taken when `len(result) == 0`): sets the identity fields in
source order, initializes the study-identifier list from the incoming
study instance UID (raising `TypeError` inside `MultiValue(UID, [...])`
when that value is not a string — after the first three `setattr`s), and
copies the additional tags with the `"empty"` policy. -/
def update_first (result dataset : PDataset) (patient_id study_uid : AttrValue)
    (additional_tags : List String) : Except UErr Unit × PDataset :=
  let r1 := setAttr result "PatientID" patient_id
  let r2 := setAttr r1 "PatientName" ((getAttr dataset "PatientName").getD (.str ""))
  let r3 := setAttr r2 "PatientBirthDate" ((getAttr dataset "PatientBirthDate").getD (.str ""))
  match study_uid with
  | .uidList _ => (.error (.malformed "StudyInstanceUID"), r3)
  | .str s =>
    let r4 := setAttr r3 "PatientStudyInstanceUIDs" (.uidList [s])
    let r5 := setAttr r4 "PacsmanPrivateIdentifier" (.str PRIVATE_ID)
    let r6 := setAttr r5 "PatientMostRecentStudyDate" ((getAttr dataset "StudyDate").getD (.str ""))
    match copy_dicom_attributes r6 dataset additional_tags "empty" with
    | .ok r7 => (.ok (), r7)
    | .error _ => (.error (.malformed "copy_dicom_attributes"), r6)

/-- The subsequent-call branch of `update_patient_result` (`base_client.py`
lines 192-197): raises `ValueError` when the accumulated patient
identifier differs from the incoming one, then adds the incoming study
instance UID to the accumulated list only when its UID-name is not already
present (set semantics over `uid.name`, modelled as the UID string). -/
def update_subsequent (result : PDataset) (patient_id study_uid : AttrValue) :
    Except UErr Unit × PDataset :=
  match getAttr result "PatientID" with
  | none => (.error (.malformed "PatientID"), result)
  | some existing_id =>
    if existing_id ≠ patient_id then
      (.error .idMismatch, result)
    else
      match getAttr result "PatientStudyInstanceUIDs" with
      | some (.uidList existing_uids) =>
        match study_uid with
        | .str s =>
          if s ∈ existing_uids then (.ok (), result)
          else (.ok (), setAttr result "PatientStudyInstanceUIDs"
            (.uidList (existing_uids ++ [s])))
        | .uidList _ => (.error (.malformed "StudyInstanceUID"), result)
      | _ => (.error (.malformed "PatientStudyInstanceUIDs"), result)

/-- The most-recent-study-date tail of `update_patient_result`
(`base_client.py` lines 199-203), run on every call after the branch:
a non-empty incoming study date replaces the stored one exactly when the
stored one is empty or sorts strictly below the incoming one. -/
def update_date_tail (result dataset : PDataset) : Except UErr Unit × PDataset :=
  let study_date := (getAttr dataset "StudyDate").getD (.str "")
  if study_date = .str "" then
    (.ok (), result)
  else
    match getAttr result "PatientMostRecentStudyDate" with
    | none => (.error (.malformed "PatientMostRecentStudyDate"), result)
    | some existing_date =>
      if existing_date = .str "" then
        (.ok (), setAttr result "PatientMostRecentStudyDate" study_date)
      else
        match avGt study_date existing_date with
        | none => (.error (.malformed "StudyDate comparison"), result)
        | some true => (.ok (), setAttr result "PatientMostRecentStudyDate" study_date)
        | some false => (.ok (), result)

/-- Sequencing of the branch outcome with the most-recent-study-date tail:
an exception in the branch propagates with its state; a normal branch
continues into the tail (`base_client.py` lines 183-203). -/
def step_then_tail : Except UErr Unit × PDataset → PDataset → Except UErr Unit × PDataset
  | (.error e, r), _ => (.error e, r)
  | (.ok _, r), dataset => update_date_tail r dataset

/-- `update_patient_result(result, dataset, additional_tags)` from
`base_client.py` lines 172-203, as a state-passing function: the second
component is the accumulator state when the call returns or raises. -/
def update_patient_result (result dataset : PDataset) (additional_tags : List String) :
    Except UErr Unit × PDataset :=
  match getattr_required dataset "PatientID" with
  | .error e => (.error e, result)
  | .ok patient_id =>
    match getattr_required dataset "StudyInstanceUID" with
    | .error e => (.error e, result)
    | .ok study_uid =>
      step_then_tail
        (if result.length = 0 then
          update_first result dataset patient_id study_uid additional_tags
         else
          update_subsequent result patient_id study_uid)
        dataset

/-- The outcome of the association context manager in
`pynetdicom_client.py` lines 460-477 as observed by `verify`: either the
association is established and the subsequent C-ECHO returns a status, or
the association is rejected / aborted / not established. -/
inductive AssocOutcome where
  | established (echoStatus : Nat)
  | rejected
  | aborted
  | failed
deriving DecidableEq, Repr

/-- What a call of `PynetDicomClient.verify` does: return a boolean or
propagate the `ConnectionError` raised by the association context
manager. -/
inductive VerifyOutcome where
  | ok (b : Bool)
  | connectionError
deriving DecidableEq, Repr

/-- `PynetDicomClient.verify` from `pynetdicom_client.py` lines 45-66:
inside an established association it returns whether the C-ECHO status is
in the success-or-pending set; the `ConnectionError` raised by the
`association` context manager on a rejected / aborted / failed negotiation
is not caught and propagates to the caller. -/
def pynet_verify : AssocOutcome → VerifyOutcome
  | .established st => .ok (status_success_or_pending.contains st)
  | .rejected => .connectionError
  | .aborted => .connectionError
  | .failed => .connectionError

/-- `DcmtkDicomClient.verify` from `dcmtk_client.py` lines 154-164: runs
`echoscu` (via `subprocess.run` without `check=True`, which never raises
on a non-zero exit) and returns whether the return code is zero. -/
def dcmtk_verify (returncode : Int) : Bool :=
  returncode == 0

/-- `backoff_padding` from `dcmtk_client.py` line 51. -/
def backoff_padding : Nat := 20

/-- `DcmtkDicomClient._get_timeout_args` from `dcmtk_client.py` lines
166-169. -/
def get_timeout_args (timeout : Nat) (is_retry : Bool) : List String :=
  let offset := if is_retry then backoff_padding else 0
  ["--timeout", toString (timeout + offset),
   "--dimse-timeout", toString (timeout + offset)]

/-- One character class of the scanner pattern: `[\da-f]` (lowercase hex
digit). -/
def isLowerHexDigit (c : Char) : Bool :=
  c.isDigit || ('a' ≤ c && c ≤ 'f')

/-- Value of one hex digit. -/
def hexDigitVal (c : Char) : Nat :=
  if c.isDigit then c.toNat - '0'.toNat else c.toNat - 'a'.toNat + 10

/-- `int(code, 16)` on a digit list. -/
def hexVal (cs : List Char) : Nat :=
  cs.foldl (fun acc c => 16 * acc + hexDigitVal c) 0

/-- The regex `[EF]: ([\da-f]{4}:[\da-f]{4}) [^#\r\n]+$` anchored at the
head of the character list (the trailing message must be non-empty, free
of `#` and line breaks, and reach the end of the line). -/
def errorPatternAt : List Char → Option (Nat × Nat)
  | sev :: ':' :: ' ' :: m1 :: m2 :: m3 :: m4 :: ':' :: e1 :: e2 :: e3 :: e4 :: ' ' :: rest =>
    if (sev == 'E' || sev == 'F') &&
       [m1, m2, m3, m4, e1, e2, e3, e4].all isLowerHexDigit &&
       !rest.isEmpty && rest.all (fun c => c != '#' && c != '\r' && c != '\n') then
      some (hexVal [m1, m2, m3, m4], hexVal [e1, e2, e3, e4])
    else
      none
  | _ => none

/-- `re.search` of the pattern over one line: the leftmost match wins. -/
def searchErrorPattern : List Char → Option (Nat × Nat)
  | [] => none
  | c :: cs =>
    match errorPatternAt (c :: cs) with
    | some r => some r
    | none => searchErrorPattern cs

/-- Helper for `splitlines`: accumulates the current line (reversed). -/
def splitlinesAux : List Char → List Char → List String
  | [], [] => []
  | [], acc => [String.mk acc.reverse]
  | '\r' :: '\n' :: rest, acc => String.mk acc.reverse :: splitlinesAux rest []
  | '\r' :: rest, acc => String.mk acc.reverse :: splitlinesAux rest []
  | '\n' :: rest, acc => String.mk acc.reverse :: splitlinesAux rest []
  | c :: rest, acc => splitlinesAux rest (c :: acc)

/-- Python `str.splitlines()` restricted to the `\n`, `\r` and `\r\n`
line breaks (the only ones occurring in DCMTK tool output): no trailing
empty segment for a string ending in a break, and the empty string yields
no lines. -/
def splitlines (s : String) : List String :=
  splitlinesAux s.toList []

/-- `_check_dcmtk_message_for_error` from `dcmtk_client.py` lines 548-574:
take the last three lines of the message, scan them in reverse order
(most recent first), and return the `(module_code, error_code)` pair of
the first line matching the pattern, or `None`. -/
def check_dcmtk_message_for_error (dcmtk_message : String) : Option (Nat × Nat) :=
  let message_lines := (splitlines dcmtk_message)
  let lastThree := message_lines.drop (message_lines.length - 3)
  lastThree.reverse.findSome? (fun line => searchErrorPattern line.toList)

/-- `dcmtk_error_codes['dcmnet-DIMSEC_NODATAAVAILABLE']` from
`dcmtk_client.py` lines 35-38. -/
def dcmnet_DIMSEC_NODATAAVAILABLE : Nat × Nat := (6, 0x207)

/-- `_check_dcmtk_message_for_timeout` from `dcmtk_client.py` lines
577-579. -/
def check_dcmtk_message_for_timeout (dcmtk_message : String) : Bool :=
  check_dcmtk_message_for_error dcmtk_message == some dcmnet_DIMSEC_NODATAAVAILABLE

/-- The observable outcome of one `findscu` invocation in
`DcmtkDicomClient._send_c_find`: the process exit code, its textual
output channels, and the datasets read back from the tool's output
directory on success. -/
structure FindOutcome where
  returncode : Int
  stdout : String
  stderr : String
  datasets : List PDataset
deriving Repr

/-- `DcmtkDicomClient._send_c_find` from `dcmtk_client.py` lines 184-223,
parameterized by the subprocess exchange `run` (a function from the
timeout arguments of the invocation to its outcome).  The second
component counts how many `findscu` invocations were made.  A non-zero
exit returns no datasets; a detected timeout triggers exactly one
recursive retry (with `is_retry = true`, hence padded timeouts) when the
backoff policy is enabled and this call is not already the retry. -/
def send_c_find (timeout : Nat) (retry_timeouts_with_backoff : Bool)
    (run : List String → FindOutcome) (is_retry : Bool) : List PDataset × Nat :=
  let result := run (get_timeout_args timeout is_retry)
  let message := if result.stdout ≠ "" then result.stdout else result.stderr
  if result.returncode ≠ 0 then
    ([], 1)
  else if check_dcmtk_message_for_timeout message then
    if h : retry_timeouts_with_backoff = true ∧ is_retry = false then
      let retried := send_c_find timeout retry_timeouts_with_backoff run true
      (retried.1, retried.2 + 1)
    else
      ([], 1)
  else
    (result.datasets, 1)
termination_by (if is_retry then 0 else 1)
decreasing_by simp [h.2]

/-- The observable outcome of one `movescu` invocation in
`DcmtkDicomClient._send_c_move`: the process exit code and its textual
output channels (retrieved files travel through the filesystem and play
no part in the retry decision; the source's return value is a boolean). -/
structure MoveOutcome where
  returncode : Int
  stdout : String
  stderr : String
deriving Repr

/-- `DcmtkDicomClient._send_c_move` from `dcmtk_client.py` lines 225-269,
parameterized by the subprocess exchange `run` and by whether the
`storescp` listener process is still running (lines 226-229 raise when it
has exited, modelled as `.error ()`).  The boolean is the source's return
value; the list records the timeout-argument vector handed to each
`movescu` invocation in order, so the retry behaviour is observable.
Note that the source builds `movescu_args` with `self._get_timeout_args()`
- the `is_retry` flag is NOT forwarded (line 245, unlike `_send_c_find`
line 198) - so every invocation, the retry included, carries the
original un-enlarged timeout. -/
def send_c_move (timeout : Nat) (retry_timeouts_with_backoff : Bool)
    (storescp_running : Bool) (run : List String → MoveOutcome)
    (is_retry : Bool) : Except Unit (Bool × List (List String)) :=
  if storescp_running = false then
    .error ()
  else
    let args := get_timeout_args timeout false
    let result := run args
    let message := if result.stdout ≠ "" then result.stdout else result.stderr
    if result.returncode ≠ 0 then
      .ok (false, [args])
    else if check_dcmtk_message_for_timeout message then
      if _hretry : retry_timeouts_with_backoff = true ∧ is_retry = false then
        match send_c_move timeout retry_timeouts_with_backoff storescp_running
            run true with
        | .error e => .error e
        | .ok (b, l) => .ok (b, args :: l)
      else
        .ok (false, [args])
    else
      .ok (true, [args])
termination_by (if is_retry then 0 else 1)
decreasing_by simp [_hretry.2]

/-- A send destination: remote application entity title, host and port. -/
structure DicomDestination where
  remote_ae : String
  pacs_url : String
  pacs_port : Nat
deriving DecidableEq, Repr

/-- The destination-override selection at the head of
`PynetDicomClient.send_datasets` (`pynetdicom_client.py` lines 342-351) and
`DcmtkDicomClient.send_datasets` (`dcmtk_client.py` lines 514-524): the
override is used only when all three parts are supplied; otherwise the
configured defaults are used. -/
def send_datasets_destination (cfg : DicomDestination)
    (override_remote_ae : Option String) (override_pacs_url : Option String)
    (override_pacs_port : Option Nat) : DicomDestination :=
  match override_remote_ae, override_pacs_url, override_pacs_port with
  | some a, some u, some p => ⟨a, u, p⟩
  | _, _, _ => cfg

/-- A concrete record used in the status-classification example. -/
def recordA : PDataset := [("PatientID", AttrValue.str "PAT014")]

/-- Membership of all statuses of a response list in the
success-or-pending set. -/
def allSuccessOrPending (l : List (Nat × Option PDataset)) : Prop :=
  ∀ e ∈ l, e.1 ∈ status_success_or_pending

end Pacsman

namespace Pacsman

theorem checked_responses_ok_of_all (l : List (Nat × Option PDataset))
    (h : allSuccessOrPending l) :
    checked_responses l = .ok (l.filterMap Prod.snd) := by
  induction l with
  | nil => rfl
  | cons hd tl ih =>
    obtain ⟨s, d⟩ := hd
    have hs : s ∈ status_success_or_pending := h (s, d) (by simp)
    have htl : allSuccessOrPending tl := fun e he => h e (List.mem_cons_of_mem _ he)
    cases d with
    | some ds =>
      simp [checked_responses, hs, ih htl, List.filterMap_cons, Except.map]
    | none =>
      simp [checked_responses, hs, ih htl, List.filterMap_cons]

theorem checked_responses_error_of_bad (pre : List (Nat × Option PDataset))
    (s : Nat) (d : Option PDataset) (post : List (Nat × Option PDataset))
    (hpre : allSuccessOrPending pre)
    (hs : s ∉ status_success_or_pending) :
    checked_responses (pre ++ (s, d) :: post) = .error s := by
  induction pre with
  | nil => simp [checked_responses, hs]
  | cons hd tl ih =>
    obtain ⟨s', d'⟩ := hd
    have hs' : s' ∈ status_success_or_pending := hpre (s', d') (by simp)
    have htl : allSuccessOrPending tl := fun e he => hpre e (List.mem_cons_of_mem _ he)
    cases d' with
    | some ds => simp [checked_responses, hs', ih htl, Except.map]
    | none => simp [checked_responses, hs', ih htl]

/-- C1: status classification of a streamed find/move response list.  Every
response with a status in the set yields its payload dataset (absent
payloads on terminal success markers are skipped), any status outside the
set aborts the stream with an error carrying that code regardless of what
follows, and the concrete list of a pending record followed by a terminal
empty success marker yields exactly the pending record. -/
theorem C1_checked_responses_classification :
    (∀ l : List (Nat × Option PDataset), allSuccessOrPending l →
      checked_responses l = .ok (l.filterMap Prod.snd)) ∧
    (∀ (pre : List (Nat × Option PDataset)) (s : Nat) (d : Option PDataset)
        (post : List (Nat × Option PDataset)), allSuccessOrPending pre →
      s ∉ status_success_or_pending →
      checked_responses (pre ++ (s, d) :: post) = .error s) ∧
    checked_responses [(0xFF00, some recordA), (0x0000, none)] = .ok [recordA] := by
  exact ⟨checked_responses_ok_of_all, checked_responses_error_of_bad, rfl⟩

theorem getAttr_setAttr_self (d : PDataset) (n : String) (v : AttrValue) :
    getAttr (setAttr d n v) n = some v := by
  induction d with
  | nil => simp [setAttr, getAttr]
  | cons hd tl ih =>
    obtain ⟨k, w⟩ := hd
    by_cases hk : k = n
    · simp [setAttr, getAttr, hk]
    · simp [setAttr, getAttr, hk, ih]

theorem getAttr_setAttr_ne (d : PDataset) (n m : String) (v : AttrValue)
    (h : n ≠ m) : getAttr (setAttr d n v) m = getAttr d m := by
  induction d with
  | nil => simp [setAttr, getAttr, h]
  | cons hd tl ih =>
    obtain ⟨k, w⟩ := hd
    by_cases hk : k = n
    · subst hk; simp [setAttr, getAttr, h]
    · simp [setAttr, getAttr, hk, ih]

theorem setAttr_ne_nil (d : PDataset) (n : String) (v : AttrValue) :
    setAttr d n v ≠ [] := by
  cases d with
  | nil => simp [setAttr]
  | cons hd tl =>
    obtain ⟨k, w⟩ := hd
    by_cases hk : k = n <;> simp [setAttr, hk]

theorem copy_empty_ok (s : PDataset) (tags : List String) :
    ∀ d, ∃ r, copy_dicom_attributes d s tags "empty" = .ok r := by
  induction tags with
  | nil => intro d; exact ⟨d, rfl⟩
  | cons t rest ih =>
    intro d
    cases hv : getAttr s t with
    | some v =>
      obtain ⟨r, hr⟩ := ih (setAttr d t v)
      exact ⟨r, by simp [copy_dicom_attributes, hv, hr]⟩
    | none =>
      obtain ⟨r, hr⟩ := ih (setAttr d t (.str ""))
      exact ⟨r, by simp [copy_dicom_attributes, hv, hr]⟩

theorem copy_empty_getAttr (s : PDataset) (tags : List String) (n : String) :
    ∀ d r, copy_dicom_attributes d s tags "empty" = .ok r →
      getAttr r n =
        if n ∈ tags then some ((getAttr s n).getD (.str "")) else getAttr d n := by
  induction tags with
  | nil =>
    intro d r h
    simp [copy_dicom_attributes] at h
    subst h; simp
  | cons t rest ih =>
    intro d r h
    cases hv : getAttr s t with
    | some v =>
      simp only [copy_dicom_attributes, hv] at h
      rw [ih _ _ h]
      by_cases hn : n ∈ rest
      · simp [hn]
      · by_cases ht : t = n
        · subst ht
          simp [hn, getAttr_setAttr_self, hv]
        · have hne : n ≠ t := fun hx => ht hx.symm
          simp [hn, hne, getAttr_setAttr_ne _ _ _ _ ht]
    | none =>
      simp only [copy_dicom_attributes, hv, reduceIte] at h
      rw [ih _ _ h]
      by_cases hn : n ∈ rest
      · simp [hn]
      · by_cases ht : t = n
        · subst ht
          simp [hn, getAttr_setAttr_self, hv]
        · have hne : n ≠ t := fun hx => ht hx.symm
          simp [hn, hne, getAttr_setAttr_ne _ _ _ _ ht]

theorem copy_empty_ne_nil (s : PDataset) (tags : List String) :
    ∀ d r, copy_dicom_attributes d s tags "empty" = .ok r → d ≠ [] → r ≠ [] := by
  induction tags with
  | nil =>
    intro d r h hd
    simp [copy_dicom_attributes] at h
    subst h; exact hd
  | cons t rest ih =>
    intro d r h _
    cases hv : getAttr s t with
    | some v =>
      simp only [copy_dicom_attributes, hv] at h
      exact ih _ _ h (setAttr_ne_nil _ _ _)
    | none =>
      simp only [copy_dicom_attributes, hv, reduceIte] at h
      exact ih _ _ h (setAttr_ne_nil _ _ _)

theorem charListLt_self (l : List Char) : charListLt l l = false := by
  induction l with
  | nil => rfl
  | cons a as ih => simp [charListLt, ih]

theorem strLt_self (a : String) : strLt a a = false :=
  charListLt_self a.data

theorem listStrGt_self (l : List String) : listStrGt l l = false := by
  induction l with
  | nil => rfl
  | cons a as ih => simp [listStrGt, ih]

theorem avGt_self (v : AttrValue) : avGt v v = some false := by
  cases v with
  | str a => simp [avGt, strLt_self]
  | uidList l => simp [avGt, listStrGt_self]

theorem update_date_tail_pm (result dataset : PDataset) (old sd : String)
    (hpm : getAttr result "PatientMostRecentStudyDate" = some (.str old))
    (hsd : getAttr dataset "StudyDate" = some (.str sd)) :
    update_date_tail result dataset =
      (.ok (), if sd ≠ "" ∧ (old = "" ∨ strLt old sd = true) then
        setAttr result "PatientMostRecentStudyDate" (.str sd) else result) := by
  by_cases hsd0 : sd = ""
  · subst hsd0; simp [update_date_tail, hsd, hpm]
  · by_cases hold : old = ""
    · subst hold
      simp [update_date_tail, hsd, hpm, hsd0, avGt]
    · cases hlt : strLt old sd with
      | true =>
        simp only [update_date_tail, hsd, Option.getD_some, hpm]
        rw [if_neg (by simp [hsd0])]
        simp only [avGt, hlt]
        rw [if_neg (by simp [hold]), if_pos ⟨hsd0, Or.inr trivial⟩]
      | false =>
        simp only [update_date_tail, hsd, Option.getD_some, hpm]
        rw [if_neg (by simp [hsd0])]
        simp only [avGt, hlt]
        rw [if_neg (by simp [hold]),
          if_neg (fun hc => hc.2.elim hold (fun hx => Bool.noConfusion hx))]

theorem update_date_tail_ok_shape (x dataset y : PDataset)
    (h : update_date_tail x dataset = (.ok (), y)) :
    y = x ∨ ∃ v, y = setAttr x "PatientMostRecentStudyDate" v := by
  simp only [update_date_tail] at h
  split at h
  · injection h with h1 h2; exact Or.inl h2.symm
  · split at h
    · simp at h
    · split at h
      · injection h with h1 h2; exact Or.inr ⟨_, h2.symm⟩
      · split at h
        · simp at h
        · injection h with h1 h2; exact Or.inr ⟨_, h2.symm⟩
        · injection h with h1 h2; exact Or.inl h2.symm

theorem update_date_tail_getAttr_ne (x dataset y : PDataset) (n : String)
    (hn : n ≠ "PatientMostRecentStudyDate")
    (h : update_date_tail x dataset = (.ok (), y)) :
    getAttr y n = getAttr x n := by
  rcases update_date_tail_ok_shape x dataset y h with h1 | ⟨v, h1⟩
  · rw [h1]
  · rw [h1, getAttr_setAttr_ne _ _ _ _ (fun hx => hn hx.symm)]

theorem update_date_tail_ne_nil (x dataset y : PDataset)
    (hx : x ≠ []) (h : update_date_tail x dataset = (.ok (), y)) : y ≠ [] := by
  rcases update_date_tail_ok_shape x dataset y h with h1 | ⟨v, h1⟩
  · rw [h1]; exact hx
  · rw [h1]; exact setAttr_ne_nil _ _ _

theorem update_date_tail_idem (r0 dataset r : PDataset)
    (h : update_date_tail r0 dataset = (.ok (), r)) :
    update_date_tail r dataset = (.ok (), r) := by
  by_cases hsd : (getAttr dataset "StudyDate").getD (.str "") = .str ""
  · simp only [update_date_tail]
    rw [if_pos hsd]
  · simp only [update_date_tail] at h ⊢
    rw [if_neg hsd] at h ⊢
    cases hpm : getAttr r0 "PatientMostRecentStudyDate" with
    | none => simp only [hpm] at h; simp at h
    | some pm =>
      simp only [hpm] at h
      by_cases hpm0 : pm = .str ""
      · rw [if_pos hpm0] at h
        injection h with h1 h2
        rw [← h2]
        simp only [getAttr_setAttr_self]
        rw [if_neg hsd, avGt_self]
      · rw [if_neg hpm0] at h
        cases hgt : avGt ((getAttr dataset "StudyDate").getD (.str "")) pm with
        | none => simp only [hgt] at h; simp at h
        | some b =>
          simp only [hgt] at h
          cases b with
          | true =>
            injection h with h1 h2
            rw [← h2]
            simp only [getAttr_setAttr_self]
            rw [if_neg hsd, avGt_self]
          | false =>
            injection h with h1 h2
            rw [← h2]
            simp only [hpm]
            rw [if_neg hpm0]
            simp only [hgt]

theorem update_subsequent_spec (result : PDataset) (pid : AttrValue) (s : String)
    (l : List String)
    (hpid : getAttr result "PatientID" = some pid)
    (hl : getAttr result "PatientStudyInstanceUIDs" = some (.uidList l)) :
    update_subsequent result pid (.str s) =
      (.ok (), if s ∈ l then result
       else setAttr result "PatientStudyInstanceUIDs" (.uidList (l ++ [s]))) := by
  unfold update_subsequent
  rw [hpid]
  simp only [ne_eq, not_true_eq_false, if_neg]
  rw [if_neg (by simp)]
  rw [hl]
  by_cases hs : s ∈ l <;> simp [hs]

theorem update_subsequent_ok_inv (result : PDataset) (pid suid : AttrValue)
    (rmid : PDataset)
    (h : update_subsequent result pid suid = (.ok (), rmid)) :
    ∃ s l, suid = .str s ∧ getAttr result "PatientID" = some pid ∧
      getAttr result "PatientStudyInstanceUIDs" = some (.uidList l) ∧
      ((s ∈ l ∧ rmid = result) ∨
       (s ∉ l ∧ rmid = setAttr result "PatientStudyInstanceUIDs"
          (.uidList (l ++ [s])))) := by
  unfold update_subsequent at h
  split at h
  · simp at h
  · rename_i eid hpid
    split at h
    · simp at h
    · rename_i hne
      push_neg at hne
      subst hne
      split at h
      · rename_i l hl
        split at h
        · rename_i s
          split at h
          · rename_i hs
            injection h with h1 h2
            exact ⟨s, l, rfl, hpid, hl, Or.inl ⟨hs, h2.symm⟩⟩
          · rename_i hs
            injection h with h1 h2
            exact ⟨s, l, rfl, hpid, hl, Or.inr ⟨hs, h2.symm⟩⟩
        · simp at h
      · simp at h

theorem update_first_error_malformed (result dataset : PDataset)
    (pid suid : AttrValue) (tags : List String) (e : UErr) (r : PDataset)
    (h : update_first result dataset pid suid tags = (.error e, r)) :
    ∃ n, e = .malformed n := by
  simp only [update_first] at h
  split at h
  · injection h with h1 h2
    injection h1 with h3
    exact ⟨_, h3.symm⟩
  · split at h
    · simp at h
    · injection h with h1 h2
      injection h1 with h3
      exact ⟨_, h3.symm⟩

theorem update_subsequent_error_state (result : PDataset) (pid suid : AttrValue)
    (e : UErr) (r : PDataset)
    (h : update_subsequent result pid suid = (.error e, r)) : r = result := by
  unfold update_subsequent at h
  split at h
  · injection h with h1 h2; exact h2.symm
  · split at h
    · injection h with h1 h2; exact h2.symm
    · split at h
      · split at h
        · split at h
          · simp at h
          · simp at h
        · injection h with h1 h2; exact h2.symm
      · injection h with h1 h2; exact h2.symm

theorem update_date_tail_error_malformed (x dataset : PDataset) (e : UErr)
    (r : PDataset) (h : update_date_tail x dataset = (.error e, r)) :
    ∃ n, e = .malformed n := by
  simp only [update_date_tail] at h
  split at h
  · simp at h
  · split at h
    · injection h with h1 h2
      injection h1 with h3
      exact ⟨_, h3.symm⟩
    · split at h
      · simp at h
      · split at h
        · injection h with h1 h2
          injection h1 with h3
          exact ⟨_, h3.symm⟩
        · simp at h
        · simp at h

theorem update_subsequent_mismatch (result : PDataset) (pid suid eid : AttrValue)
    (hpid : getAttr result "PatientID" = some eid) (hne : eid ≠ pid) :
    update_subsequent result pid suid = (.error .idMismatch, result) := by
  simp only [update_subsequent, hpid]
  rw [if_pos hne]

theorem update_patient_result_error_state (result dataset : PDataset)
    (tags : List String) (e : UErr) (r : PDataset)
    (h : update_patient_result result dataset tags = (.error e, r))
    (he : ∀ n, e ≠ .malformed n) : r = result := by
  simp only [update_patient_result] at h
  cases hdp : getAttr dataset "PatientID" with
  | none =>
    simp only [getattr_required, hdp] at h
    injection h with h1 h2
    exact h2.symm
  | some pid =>
    simp only [getattr_required, hdp] at h
    cases hds : getAttr dataset "StudyInstanceUID" with
    | none =>
      simp only [hds] at h
      injection h with h1 h2
      exact h2.symm
    | some suid =>
      simp only [hds] at h
      by_cases hlen : result.length = 0
      · rw [if_pos hlen] at h
        rcases hfe : update_first result dataset pid suid tags with ⟨f, rmid⟩
        rw [hfe] at h
        cases f with
        | error e2 =>
          simp only [step_then_tail] at h
          injection h with h1 h2
          injection h1 with h3
          obtain ⟨n, hn⟩ := update_first_error_malformed _ _ _ _ _ _ _ hfe
          exact absurd (h3 ▸ hn) (he n)
        | ok u =>
          simp only [step_then_tail] at h
          obtain ⟨n, hn⟩ := update_date_tail_error_malformed _ _ _ _ h
          exact absurd hn (he n)
      · rw [if_neg hlen] at h
        rcases hse : update_subsequent result pid suid with ⟨f, rmid⟩
        rw [hse] at h
        cases f with
        | error e2 =>
          simp only [step_then_tail] at h
          injection h with h1 h2
          have hst := update_subsequent_error_state _ _ _ _ _ hse
          exact h2 ▸ hst
        | ok u =>
          simp only [step_then_tail] at h
          obtain ⟨n, hn⟩ := update_date_tail_error_malformed _ _ _ _ h
          exact absurd hn (he n)

/-- C2: merging an incoming record carrying a patient identifier different
from the one already bound in a non-empty accumulator fails with the
patient-identifier-mismatch error (`ValueError` in the source) and leaves
the accumulator untouched. -/
theorem C2_patient_id_mismatch (result dataset : PDataset) (tags : List String)
    (v w u : AttrValue)
    (hlen : result.length ≠ 0)
    (hv : getAttr result "PatientID" = some v)
    (hw : getAttr dataset "PatientID" = some w)
    (hne : v ≠ w)
    (hu : getAttr dataset "StudyInstanceUID" = some u) :
    update_patient_result result dataset tags = (.error .idMismatch, result) := by
  simp only [update_patient_result, getattr_required, hw, hu]
  rw [if_neg hlen, update_subsequent_mismatch result w u v hv hne]
  rfl

/-- C2 witness: a concrete accumulator bound to patient A rejects a
concrete incoming record for patient B. -/
theorem C2_patient_id_mismatch_witness :
    update_patient_result [("PatientID", AttrValue.str "A")]
      [("PatientID", AttrValue.str "B"), ("StudyInstanceUID", AttrValue.str "1.2.3")]
      [] = (.error .idMismatch, [("PatientID", AttrValue.str "A")]) :=
  C2_patient_id_mismatch [("PatientID", AttrValue.str "A")]
    [("PatientID", AttrValue.str "B"), ("StudyInstanceUID", AttrValue.str "1.2.3")]
    [] (AttrValue.str "A") (AttrValue.str "B") (AttrValue.str "1.2.3")
    (by decide) (by decide) (by decide) (by decide) (by decide)

/-- C10: implicit atomicity of the patient merge.  Whenever
`update_patient_result` raises because the incoming record lacks a
PatientID or StudyInstanceUID (`missingAttr`) or carries a differing
patient identifier (`idMismatch`), the accumulator state it leaves behind
is exactly the state it was handed. -/
theorem C10_merge_atomic_on_error :
    (∀ (result dataset : PDataset) (tags : List String) (n : String) (r : PDataset),
      update_patient_result result dataset tags = (.error (.missingAttr n), r) →
      r = result) ∧
    (∀ (result dataset : PDataset) (tags : List String) (r : PDataset),
      update_patient_result result dataset tags = (.error .idMismatch, r) →
      r = result) := by
  constructor
  · intro result dataset tags n r h
    exact update_patient_result_error_state result dataset tags _ r h (fun m => by simp)
  · intro result dataset tags r h
    exact update_patient_result_error_state result dataset tags _ r h (fun m => by simp)

/-- C10 witness: the atomicity theorem applied at a concrete mismatching
merge: the returned state is the original one-element accumulator. -/
theorem C10_merge_atomic_on_error_witness :
    (update_patient_result [("PatientID", AttrValue.str "A")]
      [("PatientID", AttrValue.str "B"), ("StudyInstanceUID", AttrValue.str "1.2.3")]
      []).2 = [("PatientID", AttrValue.str "A")] := by
  have h := C10_merge_atomic_on_error.2 [("PatientID", AttrValue.str "A")]
    [("PatientID", AttrValue.str "B"), ("StudyInstanceUID", AttrValue.str "1.2.3")]
    [] (update_patient_result [("PatientID", AttrValue.str "A")]
      [("PatientID", AttrValue.str "B"), ("StudyInstanceUID", AttrValue.str "1.2.3")]
      []).2 rfl
  exact h

/-- C3: the most-recent-study-date update rule.  The date tail runs on
every call (first or subsequent) and replaces the stored date with the
incoming study date exactly when the incoming date is non-empty and the
stored date is empty or sorts strictly below it lexicographically (in
particular an empty incoming date never replaces a non-empty value); on a
merge into a non-empty well-formed accumulator the whole operation
succeeds and realizes that rule; and the concrete sequence of dates
2018-01-01, 2018-01-02, 2018-01-01 merged in order into a fresh
accumulator ends at 2018-01-02. -/
theorem C3_most_recent_study_date :
    (∀ (result dataset : PDataset) (old sd : String),
      getAttr result "PatientMostRecentStudyDate" = some (.str old) →
      getAttr dataset "StudyDate" = some (.str sd) →
      update_date_tail result dataset =
        (.ok (), if sd ≠ "" ∧ (old = "" ∨ strLt old sd = true) then
          setAttr result "PatientMostRecentStudyDate" (.str sd) else result)) ∧
    (∀ (result dataset : PDataset) (tags : List String) (pid : AttrValue)
        (s old sd : String) (l : List String),
      result.length ≠ 0 →
      getAttr result "PatientID" = some pid →
      getAttr dataset "PatientID" = some pid →
      getAttr dataset "StudyInstanceUID" = some (.str s) →
      getAttr result "PatientStudyInstanceUIDs" = some (.uidList l) →
      getAttr result "PatientMostRecentStudyDate" = some (.str old) →
      getAttr dataset "StudyDate" = some (.str sd) →
      (update_patient_result result dataset tags).1 = .ok () ∧
      getAttr (update_patient_result result dataset tags).2
          "PatientMostRecentStudyDate" =
        some (.str (if sd ≠ "" ∧ (old = "" ∨ strLt old sd = true) then sd else old))) ∧
    getAttr (update_patient_result (update_patient_result (update_patient_result
        [] [("PatientID", AttrValue.str "PAT014"),
            ("StudyInstanceUID", AttrValue.str "1.2.3.1"),
            ("StudyDate", AttrValue.str "2018-01-01")] []).2
        [("PatientID", AttrValue.str "PAT014"),
         ("StudyInstanceUID", AttrValue.str "1.2.3.2"),
         ("StudyDate", AttrValue.str "2018-01-02")] []).2
        [("PatientID", AttrValue.str "PAT014"),
         ("StudyInstanceUID", AttrValue.str "1.2.3.3"),
         ("StudyDate", AttrValue.str "2018-01-01")] []).2
      "PatientMostRecentStudyDate" = some (AttrValue.str "2018-01-02") := by
  refine ⟨update_date_tail_pm, ?_, ?_⟩
  · intro result dataset tags pid s old sd l hlen hpid hdpid hsuid hl hold hsd
    simp only [update_patient_result, getattr_required, hdpid, hsuid]
    rw [if_neg hlen, update_subsequent_spec result pid s l hpid hl]
    simp only [step_then_tail]
    have hget : getAttr (if s ∈ l then result
        else setAttr result "PatientStudyInstanceUIDs" (.uidList (l ++ [s])))
        "PatientMostRecentStudyDate" = some (.str old) := by
      by_cases hs : s ∈ l
      · rw [if_pos hs]; exact hold
      · rw [if_neg hs, getAttr_setAttr_ne _ _ _ _ (by decide)]; exact hold
    rw [update_date_tail_pm _ dataset old sd hget hsd]
    by_cases hc : sd ≠ "" ∧ (old = "" ∨ strLt old sd = true)
    · rw [if_pos hc, if_pos hc]
      exact ⟨rfl, getAttr_setAttr_self _ _ _⟩
    · rw [if_neg hc, if_neg hc]
      exact ⟨rfl, hget⟩
  · decide

/-- C3 witness: the general date rule applied at a concrete non-empty
accumulator holding 2018-01-01 and an incoming record dated 2018-01-02:
the merge succeeds and the stored date becomes the incoming one. -/
theorem C3_most_recent_study_date_witness :
    (update_patient_result
        [("PatientID", AttrValue.str "p"),
         ("PatientStudyInstanceUIDs", AttrValue.uidList ["1.2.3.1"]),
         ("PatientMostRecentStudyDate", AttrValue.str "2018-01-01")]
        [("PatientID", AttrValue.str "p"),
         ("StudyInstanceUID", AttrValue.str "1.2.3.2"),
         ("StudyDate", AttrValue.str "2018-01-02")] []).1 = .ok () ∧
    getAttr (update_patient_result
        [("PatientID", AttrValue.str "p"),
         ("PatientStudyInstanceUIDs", AttrValue.uidList ["1.2.3.1"]),
         ("PatientMostRecentStudyDate", AttrValue.str "2018-01-01")]
        [("PatientID", AttrValue.str "p"),
         ("StudyInstanceUID", AttrValue.str "1.2.3.2"),
         ("StudyDate", AttrValue.str "2018-01-02")] []).2
      "PatientMostRecentStudyDate" =
      some (AttrValue.str (if ("2018-01-02" : String) ≠ "" ∧
        ("2018-01-01" = "" ∨ strLt "2018-01-01" "2018-01-02" = true)
        then "2018-01-02" else "2018-01-01")) :=
  C3_most_recent_study_date.2.1
    [("PatientID", AttrValue.str "p"),
     ("PatientStudyInstanceUIDs", AttrValue.uidList ["1.2.3.1"]),
     ("PatientMostRecentStudyDate", AttrValue.str "2018-01-01")]
    [("PatientID", AttrValue.str "p"),
     ("StudyInstanceUID", AttrValue.str "1.2.3.2"),
     ("StudyDate", AttrValue.str "2018-01-02")] []
    (AttrValue.str "p") "1.2.3.2" "2018-01-01" "2018-01-02" ["1.2.3.1"]
    (by decide) (by decide) (by decide) (by decide) (by decide) (by decide)
    (by decide)

theorem update_first_ok_parts (dataset : PDataset) (pid : AttrValue) (s : String)
    (tags : List String) (r7 : PDataset)
    (h : copy_dicom_attributes (setAttr (setAttr (setAttr (setAttr (setAttr (setAttr
        ([] : PDataset) "PatientID" pid)
        "PatientName" ((getAttr dataset "PatientName").getD (.str "")))
        "PatientBirthDate" ((getAttr dataset "PatientBirthDate").getD (.str "")))
        "PatientStudyInstanceUIDs" (.uidList [s]))
        "PacsmanPrivateIdentifier" (.str PRIVATE_ID))
        "PatientMostRecentStudyDate" ((getAttr dataset "StudyDate").getD (.str "")))
        dataset tags "empty" = .ok r7) :
    update_first [] dataset pid (.str s) tags = (.ok (), r7) := by
  simp only [update_first]
  rw [h]

theorem C4_helper_second_call (r dataset : PDataset) (tags : List String)
    (pid : AttrValue) (s : String) (uids : List String) (rmid : PDataset)
    (hdp : getAttr dataset "PatientID" = some pid)
    (hds : getAttr dataset "StudyInstanceUID" = some (.str s))
    (hrne : r ≠ [])
    (hpidr : getAttr r "PatientID" = some pid)
    (hpsir : getAttr r "PatientStudyInstanceUIDs" = some (.uidList uids))
    (hmem : s ∈ uids)
    (htail : update_date_tail rmid dataset = (.ok (), r)) :
    update_patient_result r dataset tags = (.ok (), r) := by
  simp only [update_patient_result, getattr_required, hdp, hds]
  rw [if_neg (fun hx => hrne (List.length_eq_zero.mp hx))]
  rw [update_subsequent_spec r pid s uids hpidr hpsir, if_pos hmem]
  simp only [step_then_tail]
  exact update_date_tail_idem rmid dataset r htail

/-- C4 counterexample: the merge is not idempotent for every accumulator,
incoming record and additional-tag list.  With the private
study-identifier-set attribute listed as an additional tag and carried by
the incoming record, the first call's attribute copy overwrites the
accumulated set, and re-applying the same record then appends the study
identifier again: the second call returns normally with a changed
accumulator. -/
theorem C4_not_idempotent_counterexample :
    update_patient_result []
      [("PatientID", AttrValue.str "p"), ("StudyInstanceUID", AttrValue.str "s"),
       ("PatientStudyInstanceUIDs", AttrValue.uidList ["x"])]
      ["PatientStudyInstanceUIDs"] =
      (.ok (), [("PatientID", AttrValue.str "p"), ("PatientName", AttrValue.str ""),
        ("PatientBirthDate", AttrValue.str ""),
        ("PatientStudyInstanceUIDs", AttrValue.uidList ["x"]),
        ("PacsmanPrivateIdentifier", AttrValue.str "pacsman"),
        ("PatientMostRecentStudyDate", AttrValue.str "")]) ∧
    (update_patient_result
      [("PatientID", AttrValue.str "p"), ("PatientName", AttrValue.str ""),
       ("PatientBirthDate", AttrValue.str ""),
       ("PatientStudyInstanceUIDs", AttrValue.uidList ["x"]),
       ("PacsmanPrivateIdentifier", AttrValue.str "pacsman"),
       ("PatientMostRecentStudyDate", AttrValue.str "")]
      [("PatientID", AttrValue.str "p"), ("StudyInstanceUID", AttrValue.str "s"),
       ("PatientStudyInstanceUIDs", AttrValue.uidList ["x"])]
      ["PatientStudyInstanceUIDs"]).2 ≠
      [("PatientID", AttrValue.str "p"), ("PatientName", AttrValue.str ""),
       ("PatientBirthDate", AttrValue.str ""),
       ("PatientStudyInstanceUIDs", AttrValue.uidList ["x"]),
       ("PacsmanPrivateIdentifier", AttrValue.str "pacsman"),
       ("PatientMostRecentStudyDate", AttrValue.str "")] := by
  constructor
  · rfl
  · decide

/-- C4 (amended): the patient merge is idempotent provided the
additional-tag list does not name the private study-identifier-set
attribute `PatientStudyInstanceUIDs` (whose copy from the incoming record
clobbers the accumulated set): if a call returns normally with state `r`,
re-applying the same incoming record and tag list to `r` returns normally
and leaves `r` unchanged — in particular the study-identifier set and the
most-recent-study-date are unchanged. -/
theorem C4_merge_idempotent (result dataset : PDataset) (tags : List String)
    (r : PDataset)
    (htags : "PatientStudyInstanceUIDs" ∉ tags)
    (h : update_patient_result result dataset tags = (.ok (), r)) :
    update_patient_result r dataset tags = (.ok (), r) := by
  rcases hdp : getAttr dataset "PatientID" with _ | pid
  · simp only [update_patient_result, getattr_required, hdp] at h
    simp at h
  rcases hds : getAttr dataset "StudyInstanceUID" with _ | suid
  · simp only [update_patient_result, getattr_required, hdp, hds] at h
    simp at h
  simp only [update_patient_result, getattr_required, hdp, hds] at h
  by_cases hlen : result.length = 0
  · -- first call took the empty branch: the accumulator was empty
    have hres : result = [] := List.length_eq_zero.mp hlen
    subst hres
    rw [if_pos hlen] at h
    cases suid with
    | uidList us =>
      simp only [update_first, step_then_tail] at h
      simp at h
    | str s =>
      obtain ⟨r7, hc⟩ := copy_empty_ok dataset tags
        (setAttr (setAttr (setAttr (setAttr (setAttr (setAttr ([] : PDataset)
          "PatientID" pid)
          "PatientName" ((getAttr dataset "PatientName").getD (.str "")))
          "PatientBirthDate" ((getAttr dataset "PatientBirthDate").getD (.str "")))
          "PatientStudyInstanceUIDs" (.uidList [s]))
          "PacsmanPrivateIdentifier" (.str PRIVATE_ID))
          "PatientMostRecentStudyDate" ((getAttr dataset "StudyDate").getD (.str "")))
      rw [update_first_ok_parts dataset pid s tags r7 hc] at h
      simp only [step_then_tail] at h
      have hr7ne : r7 ≠ [] :=
        copy_empty_ne_nil dataset tags _ r7 hc (setAttr_ne_nil _ _ _)
      have hrne : r ≠ [] := update_date_tail_ne_nil r7 dataset r hr7ne h
      have hpid7 : getAttr r7 "PatientID" = some pid := by
        rw [copy_empty_getAttr dataset tags "PatientID" _ r7 hc]
        by_cases ht : "PatientID" ∈ tags
        · rw [if_pos ht, hdp]; rfl
        · rw [if_neg ht]
          rw [getAttr_setAttr_ne _ _ _ _ (by decide),
            getAttr_setAttr_ne _ _ _ _ (by decide),
            getAttr_setAttr_ne _ _ _ _ (by decide),
            getAttr_setAttr_ne _ _ _ _ (by decide),
            getAttr_setAttr_ne _ _ _ _ (by decide),
            getAttr_setAttr_self]
      have hpsi7 : getAttr r7 "PatientStudyInstanceUIDs" =
          some (.uidList [s]) := by
        rw [copy_empty_getAttr dataset tags "PatientStudyInstanceUIDs" _ r7 hc]
        rw [if_neg htags]
        rw [getAttr_setAttr_ne _ _ _ _ (by decide),
          getAttr_setAttr_ne _ _ _ _ (by decide),
          getAttr_setAttr_self]
      have hpidr : getAttr r "PatientID" = some pid := by
        rw [update_date_tail_getAttr_ne r7 dataset r _ (by decide) h]
        exact hpid7
      have hpsir : getAttr r "PatientStudyInstanceUIDs" = some (.uidList [s]) := by
        rw [update_date_tail_getAttr_ne r7 dataset r _ (by decide) h]
        exact hpsi7
      exact C4_helper_second_call r dataset tags pid s [s] r7 hdp hds hrne
        hpidr hpsir (List.mem_singleton.mpr rfl) h
  · -- first call took the subsequent branch
    rw [if_neg hlen] at h
    rcases hse : update_subsequent result pid suid with ⟨f, rmid⟩
    rw [hse] at h
    cases f with
    | error e2 => simp only [step_then_tail] at h; simp at h
    | ok u =>
      simp only [step_then_tail] at h
      obtain ⟨s, l, hsuid, hpidres, hlres, hcases⟩ :=
        update_subsequent_ok_inv result pid suid rmid hse
      subst hsuid
      have hresne : result ≠ [] := fun hx => hlen (by rw [hx]; rfl)
      rcases hcases with ⟨hmem, hrm⟩ | ⟨hmem, hrm⟩
      · rw [hrm] at h
        have hrne : r ≠ [] := update_date_tail_ne_nil _ dataset r hresne h
        have hpidr : getAttr r "PatientID" = some pid := by
          rw [update_date_tail_getAttr_ne _ dataset r _ (by decide) h]
          exact hpidres
        have hpsir : getAttr r "PatientStudyInstanceUIDs" = some (.uidList l) := by
          rw [update_date_tail_getAttr_ne _ dataset r _ (by decide) h]
          exact hlres
        exact C4_helper_second_call r dataset tags pid s l result hdp hds hrne
          hpidr hpsir hmem h
      · rw [hrm] at h
        have hmidne : setAttr result "PatientStudyInstanceUIDs"
            (.uidList (l ++ [s])) ≠ [] := setAttr_ne_nil _ _ _
        have hrne : r ≠ [] := update_date_tail_ne_nil _ dataset r hmidne h
        have hpidr : getAttr r "PatientID" = some pid := by
          rw [update_date_tail_getAttr_ne _ dataset r _ (by decide) h,
            getAttr_setAttr_ne _ _ _ _ (by decide)]
          exact hpidres
        have hpsir : getAttr r "PatientStudyInstanceUIDs" =
            some (.uidList (l ++ [s])) := by
          rw [update_date_tail_getAttr_ne _ dataset r _ (by decide) h,
            getAttr_setAttr_self]
        exact C4_helper_second_call r dataset tags pid s (l ++ [s])
          (setAttr result "PatientStudyInstanceUIDs" (.uidList (l ++ [s])))
          hdp hds hrne hpidr hpsir (List.mem_append_right l (List.mem_singleton.mpr rfl)) h

/-- C4 witness: the amended idempotence applied at a concrete first merge
into an empty accumulator with an empty tag list: re-applying the same
record returns the same accumulator unchanged. -/
theorem C4_merge_idempotent_witness :
    update_patient_result
      [("PatientID", AttrValue.str "p"), ("PatientName", AttrValue.str ""),
       ("PatientBirthDate", AttrValue.str ""),
       ("PatientStudyInstanceUIDs", AttrValue.uidList ["1.2.3"]),
       ("PacsmanPrivateIdentifier", AttrValue.str "pacsman"),
       ("PatientMostRecentStudyDate", AttrValue.str "20180101")]
      [("PatientID", AttrValue.str "p"), ("StudyInstanceUID", AttrValue.str "1.2.3"),
       ("StudyDate", AttrValue.str "20180101")] [] =
      (.ok (), [("PatientID", AttrValue.str "p"), ("PatientName", AttrValue.str ""),
        ("PatientBirthDate", AttrValue.str ""),
        ("PatientStudyInstanceUIDs", AttrValue.uidList ["1.2.3"]),
        ("PacsmanPrivateIdentifier", AttrValue.str "pacsman"),
        ("PatientMostRecentStudyDate", AttrValue.str "20180101")]) :=
  C4_merge_idempotent []
    [("PatientID", AttrValue.str "p"), ("StudyInstanceUID", AttrValue.str "1.2.3"),
     ("StudyDate", AttrValue.str "20180101")] []
    [("PatientID", AttrValue.str "p"), ("PatientName", AttrValue.str ""),
     ("PatientBirthDate", AttrValue.str ""),
     ("PatientStudyInstanceUIDs", AttrValue.uidList ["1.2.3"]),
     ("PacsmanPrivateIdentifier", AttrValue.str "pacsman"),
     ("PatientMostRecentStudyDate", AttrValue.str "20180101")]
    (by decide) rfl

/-- C5 counterexample: verify() is not a never-raising boolean probe in
the pynetdicom client.  On a rejected association the `ConnectionError`
raised by the association context manager propagates out of `verify`
instead of yielding `False`. -/
theorem C5_verify_raises_counterexample :
    pynet_verify AssocOutcome.rejected = VerifyOutcome.connectionError ∧
    VerifyOutcome.connectionError ≠ VerifyOutcome.ok false :=
  ⟨rfl, by decide⟩

/-- C5 (amended): within an established association,
`PynetDicomClient.verify` returns true exactly when the C-ECHO status is
in the success-or-pending set and false on any other status; but a
rejected, aborted or failed association negotiation raises
`ConnectionError` out of `verify` rather than returning false.
`DcmtkDicomClient.verify` never raises: it returns exactly whether the
`echoscu` exit code is zero. -/
theorem C5_verify_amended :
    (∀ st : Nat, pynet_verify (.established st) =
      .ok (status_success_or_pending.contains st)) ∧
    pynet_verify .rejected = .connectionError ∧
    pynet_verify .aborted = .connectionError ∧
    pynet_verify .failed = .connectionError ∧
    (∀ rc : Int, dcmtk_verify rc = (rc == 0)) :=
  ⟨fun _ => rfl, rfl, rfl, rfl, fun _ => rfl⟩

theorem send_c_find_retry_attempt (timeout : Nat) (retry : Bool)
    (run : List String → FindOutcome) :
    (send_c_find timeout retry run true).2 = 1 := by
  rw [send_c_find]
  dsimp only
  split
  · rfl
  · split
    · split
      · rw [dif_neg (by simp)]
      · rfl
    · split
      · rw [dif_neg (by simp)]
      · rfl

theorem send_c_find_attempts_le_two (timeout : Nat) (retry : Bool)
    (run : List String → FindOutcome) :
    (send_c_find timeout retry run false).2 ≤ 2 := by
  rw [send_c_find]
  dsimp only
  split
  · simp
  · split
    · split
      · split
        · simp [send_c_find_retry_attempt]
        · simp
      · simp
    · split
      · split
        · simp [send_c_find_retry_attempt]
        · simp
      · simp

theorem send_c_find_no_retry_when_disabled (timeout : Nat)
    (run : List String → FindOutcome) :
    (send_c_find timeout false run false).2 = 1 := by
  rw [send_c_find]
  dsimp only
  split
  · rfl
  · split
    · split
      · rw [dif_neg (by simp)]
      · rfl
    · split
      · rw [dif_neg (by simp)]
      · rfl

theorem send_c_find_retries_once (timeout : Nat) (run : List String → FindOutcome)
    (h0 : (run (get_timeout_args timeout false)).returncode = 0)
    (ht : check_dcmtk_message_for_timeout
      (if (run (get_timeout_args timeout false)).stdout ≠ "" then
        (run (get_timeout_args timeout false)).stdout
       else (run (get_timeout_args timeout false)).stderr) = true) :
    (send_c_find timeout true run false).2 = 2 := by
  rw [send_c_find]
  dsimp only
  rw [if_neg (by simp [h0]), if_pos ht, dif_pos ⟨rfl, rfl⟩]
  simp [send_c_find_retry_attempt]

theorem find_timeout_args_enlarged_on_retry (timeout : Nat) :
    get_timeout_args timeout true =
      ["--timeout", toString (timeout + backoff_padding),
       "--dimse-timeout", toString (timeout + backoff_padding)] ∧
    get_timeout_args timeout false =
      ["--timeout", toString timeout, "--dimse-timeout", toString timeout] :=
  ⟨rfl, rfl⟩

theorem send_c_move_retry_log (timeout : Nat) (retry : Bool)
    (run : List String → MoveOutcome) (b : Bool) (l : List (List String))
    (h : send_c_move timeout retry true run true = .ok (b, l)) :
    l = [get_timeout_args timeout false] := by
  rw [send_c_move] at h
  dsimp only at h
  rw [if_neg (by simp)] at h
  by_cases hrc : (run (get_timeout_args timeout false)).returncode ≠ 0
  · rw [if_pos hrc] at h
    injection h with h1
    injection h1 with h2 h3
    exact h3.symm
  · rw [if_neg hrc] at h
    by_cases hto : check_dcmtk_message_for_timeout
        (if (run (get_timeout_args timeout false)).stdout ≠ "" then
          (run (get_timeout_args timeout false)).stdout
         else (run (get_timeout_args timeout false)).stderr) = true
    · rw [if_pos hto, dif_neg (by simp)] at h
      injection h with h1
      injection h1 with h2 h3
      exact h3.symm
    · rw [if_neg hto] at h
      injection h with h1
      injection h1 with h2 h3
      exact h3.symm

theorem send_c_move_log_shape (timeout : Nat) (retry : Bool)
    (run : List String → MoveOutcome) (b : Bool) (l : List (List String))
    (h : send_c_move timeout retry true run false = .ok (b, l)) :
    l = [get_timeout_args timeout false] ∨
    l = [get_timeout_args timeout false, get_timeout_args timeout false] := by
  rw [send_c_move] at h
  dsimp only at h
  rw [if_neg (by simp)] at h
  by_cases hrc : (run (get_timeout_args timeout false)).returncode ≠ 0
  · rw [if_pos hrc] at h
    injection h with h1
    injection h1 with h2 h3
    exact Or.inl h3.symm
  · rw [if_neg hrc] at h
    by_cases hto : check_dcmtk_message_for_timeout
        (if (run (get_timeout_args timeout false)).stdout ≠ "" then
          (run (get_timeout_args timeout false)).stdout
         else (run (get_timeout_args timeout false)).stderr) = true
    · rw [if_pos hto] at h
      by_cases hretry : retry = true
      · rw [dif_pos ⟨hretry, rfl⟩] at h
        rcases hin : send_c_move timeout retry true run true with u | ⟨b2, l2⟩
        · simp only [hin] at h
          simp at h
        · simp only [hin] at h
          have hl2 := send_c_move_retry_log timeout retry run b2 l2 hin
          injection h with h1
          injection h1 with h2 h3
          rw [← h3, hl2]
          exact Or.inr rfl
      · rw [dif_neg (by simp [hretry])] at h
        injection h with h1
        injection h1 with h2 h3
        exact Or.inl h3.symm
    · rw [if_neg hto] at h
      injection h with h1
      injection h1 with h2 h3
      exact Or.inl h3.symm

theorem send_c_move_no_retry_when_disabled (timeout : Nat)
    (run : List String → MoveOutcome) (b : Bool) (l : List (List String))
    (h : send_c_move timeout false true run false = .ok (b, l)) :
    l = [get_timeout_args timeout false] := by
  rcases send_c_move_log_shape timeout false run b l h with h1 | h1
  · exact h1
  · exfalso
    rw [send_c_move] at h
    dsimp only at h
    rw [if_neg (by simp)] at h
    by_cases hrc : (run (get_timeout_args timeout false)).returncode ≠ 0
    · rw [if_pos hrc] at h
      injection h with hp
      injection hp with hp1 hp2
      rw [h1] at hp2
      simp at hp2
    · rw [if_neg hrc] at h
      by_cases hto : check_dcmtk_message_for_timeout
          (if (run (get_timeout_args timeout false)).stdout ≠ "" then
            (run (get_timeout_args timeout false)).stdout
           else (run (get_timeout_args timeout false)).stderr) = true
      · rw [if_pos hto, dif_neg (by simp)] at h
        injection h with hp
        injection hp with hp1 hp2
        rw [h1] at hp2
        simp at hp2
      · rw [if_neg hto] at h
        injection h with hp
        injection hp with hp1 hp2
        rw [h1] at hp2
        simp at hp2

theorem send_c_move_retries_once_original_timeout (timeout : Nat)
    (run : List String → MoveOutcome)
    (h0 : (run (get_timeout_args timeout false)).returncode = 0)
    (ht : check_dcmtk_message_for_timeout
      (if (run (get_timeout_args timeout false)).stdout ≠ "" then
        (run (get_timeout_args timeout false)).stdout
       else (run (get_timeout_args timeout false)).stderr) = true) :
    send_c_move timeout true true run false =
      .ok (false, [get_timeout_args timeout false,
        get_timeout_args timeout false]) := by
  have hinner : send_c_move timeout true true run true =
      .ok (false, [get_timeout_args timeout false]) := by
    rw [send_c_move]
    dsimp only
    rw [if_neg (by simp), if_neg (by simp [h0]), if_pos ht, dif_neg (by simp)]
  rw [send_c_move]
  dsimp only
  rw [if_neg (by simp), if_neg (by simp [h0]), if_pos ht, dif_pos ⟨rfl, rfl⟩]
  simp only [hinner]

/-- C6: evaluation of the move retry at the failing input.  A move
exchange whose first attempt exits zero but reports the DIMSE
no-data-available timeout diagnostic, with the backoff policy enabled, is
retried exactly once - but both `movescu` invocations carry the original
timeout arguments, because `_send_c_move` builds its arguments with
`self._get_timeout_args()` without forwarding `is_retry`
(`dcmtk_client.py` line 245).  The enlarged arguments the retry is
documented to use (original + padding, as `_send_c_find` does via
`_get_timeout_args(is_retry)`) would have been timeout 25, not 5. -/
theorem C6_move_retry_uses_original_timeout :
    send_c_move 5 true true (fun _ =>
      ⟨0, "E: 0006:0207 DIMSE No data available (timeout in non-blocking mode)",
       ""⟩) false =
      .ok (false, [["--timeout", "5", "--dimse-timeout", "5"],
        ["--timeout", "5", "--dimse-timeout", "5"]]) ∧
    get_timeout_args 5 false = ["--timeout", "5", "--dimse-timeout", "5"] ∧
    get_timeout_args 5 true = ["--timeout", "25", "--dimse-timeout", "25"] ∧
    (send_c_find 5 true (fun _ =>
      ⟨0, "E: 0006:0207 DIMSE No data available (timeout in non-blocking mode)",
       "", []⟩) false).2 = 2 := by
  refine ⟨?_, rfl, rfl, ?_⟩
  · exact send_c_move_retries_once_original_timeout 5 _ rfl (by decide)
  · exact send_c_find_retries_once 5 _ rfl (by decide)

/-- C7: the diagnostic-text error classifier.  A block whose last line is
the DIMSE no-data-available message yields the code pair (0x0006, 0x0207)
and is classified as a timeout; a block with no E:/F: lines yields no
error; and when two matching lines are present the most recent (last)
one wins. -/
theorem C7_diagnostic_scanner :
    check_dcmtk_message_for_error
      "I: Requesting Association\nE: 0006:0207 DIMSE No data available (timeout in non-blocking mode)"
      = some (0x0006, 0x0207) ∧
    check_dcmtk_message_for_timeout
      "I: Requesting Association\nE: 0006:0207 DIMSE No data available (timeout in non-blocking mode)"
      = true ∧
    check_dcmtk_message_for_error
      "I: Requesting Association\nI: Association Accepted\nI: Releasing Association"
      = none ∧
    check_dcmtk_message_for_error
      "E: 0001:0002 first error\nE: 0006:0207 DIMSE No data available (timeout in non-blocking mode)"
      = some (0x0006, 0x0207) := by
  refine ⟨?_, ?_, ?_, ?_⟩ <;> decide

/-- C8 counterexample: an unrecognized copy policy does not always fail.
When every listed tag is present on the source, the copies are performed
and the call returns normally even though the policy value is
unrecognized. -/
theorem C8_invalid_policy_counterexample :
    copy_dicom_attributes [] [("A", AttrValue.str "v")] ["A"] "bogus" =
      .ok [("A", AttrValue.str "v")] ∧
    "bogus" ≠ "skip" ∧ "bogus" ≠ "empty" :=
  ⟨rfl, by decide, by decide⟩

/-- C8 (amended): per-name copy semantics.  A name present on the source
is copied to the destination under any policy value; an absent name is
skipped under policy skip and written as an empty string under policy
empty; and an unrecognized policy value fails with the invalid-policy
error exactly when an absent name is encountered. -/
theorem C8_copy_attributes_amended :
    (∀ (d s : PDataset) (tag : String) (v : AttrValue) (rest : List String)
        (pol : String), getAttr s tag = some v →
      copy_dicom_attributes d s (tag :: rest) pol =
        copy_dicom_attributes (setAttr d tag v) s rest pol) ∧
    (∀ (d s : PDataset) (tag : String) (rest : List String),
      getAttr s tag = none →
      copy_dicom_attributes d s (tag :: rest) "skip" =
        copy_dicom_attributes d s rest "skip") ∧
    (∀ (d s : PDataset) (tag : String) (rest : List String),
      getAttr s tag = none →
      copy_dicom_attributes d s (tag :: rest) "empty" =
        copy_dicom_attributes (setAttr d tag (.str "")) s rest "empty") ∧
    (∀ (d s : PDataset) (tag : String) (rest : List String) (pol : String),
      getAttr s tag = none → pol ≠ "skip" → pol ≠ "empty" →
      copy_dicom_attributes d s (tag :: rest) pol =
        .error (.invalidPolicy pol)) := by
  refine ⟨?_, ?_, ?_, ?_⟩
  · intro d s tag v rest pol hv
    simp [copy_dicom_attributes, hv]
  · intro d s tag rest hv
    simp [copy_dicom_attributes, hv]
  · intro d s tag rest hv
    simp [copy_dicom_attributes, hv]
  · intro d s tag rest pol hv hskip hempty
    simp [copy_dicom_attributes, hv, hskip, hempty]

/-- C8 witness: the per-name semantics applied at concrete inputs: a
missing tag under an unrecognized policy fails with the invalid-policy
error. -/
theorem C8_copy_attributes_amended_witness :
    copy_dicom_attributes [] [("A", AttrValue.str "v")] ["B"] "bogus" =
      .error (.invalidPolicy "bogus") :=
  C8_copy_attributes_amended.2.2.2 [] [("A", AttrValue.str "v")] "B" [] "bogus"
    (by decide) (by decide) (by decide)

/-- C9 counterexample: a partial destination override is not surfaced as
an error.  Supplying only the remote application-entity override leaves
the call using the configured default destination, silently. -/
theorem C9_partial_override_counterexample :
    send_datasets_destination ⟨"AE", "pacs.example.org", 104⟩
      (some "OTHER") none none = ⟨"AE", "pacs.example.org", 104⟩ := rfl

/-- C9 (amended): `send_datasets` sends to the override destination
exactly when all three override parts (remote identity, address, port)
are supplied together; when any part is missing the configured default
destination is used and no error is raised (the partial override is
silently ignored). -/
theorem C9_send_datasets_override_amended :
    (∀ (cfg : DicomDestination) (a u : String) (p : Nat),
      send_datasets_destination cfg (some a) (some u) (some p) = ⟨a, u, p⟩) ∧
    (∀ (cfg : DicomDestination) (oa ou : Option String) (op : Option Nat),
      oa = none ∨ ou = none ∨ op = none →
      send_datasets_destination cfg oa ou op = cfg) := by
  constructor
  · intro cfg a u p; rfl
  · intro cfg oa ou op h
    rcases oa with _ | a
    · cases ou <;> cases op <;> rfl
    · rcases ou with _ | u
      · cases op <;> rfl
      · rcases op with _ | p
        · rfl
        · rcases h with h | h | h <;> simp at h

/-- C9 witness: the fallback rule applied at a concrete configuration
with a missing remote-identity override: the default destination is
used. -/
theorem C9_send_datasets_override_amended_witness :
    send_datasets_destination ⟨"AE", "pacs", 104⟩ none (some "u") (some 1) =
      ⟨"AE", "pacs", 104⟩ :=
  C9_send_datasets_override_amended.2 ⟨"AE", "pacs", 104⟩ none (some "u")
    (some 1) (Or.inl rfl)

/-- C1 witness: the two quantified parts of the classification theorem,
instantiated at concrete streams.  The all-pending stream yields both
payloads; a failure status 0xC000 after one pending record aborts with
that code even though a further response follows. -/
theorem C1_checked_responses_classification_witness :
    checked_responses [(0xFF00, some recordA), (0x0000, none)] =
      .ok [recordA] ∧
    checked_responses [(0xFF00, some recordA), (0xC000, some recordA),
      (0xFF00, some recordA)] = .error 0xC000 := by
  constructor
  · exact C1_checked_responses_classification.2.2
  · exact C1_checked_responses_classification.2.1 [(0xFF00, some recordA)]
      0xC000 (some recordA) [(0xFF00, some recordA)]
      (by intro e he; simp at he; simp [he, status_success_or_pending])
      (by decide)

end Pacsman
